import Mathlib

/-!
# Verification of the atproto-to-fediverse sync pipeline

Shallow embedding of the core sync pipeline of the `atproto-to-fediverse`
bridge (Deno/TypeScript) into Lean 4, together with proofs settling the
frozen claims about its specification.

JavaScript strings are modelled as lists of UTF-16 code units
(`JSString := List Nat`), since every string primitive the code relies on
(`.length`, `.substring`, `.charCodeAt`, `TextEncoder` byte counts) is
defined over UTF-16 units.  External effects (the Date parser, the network
clients, the blob resolver) are modelled as explicit function parameters.
-/

set_option maxRecDepth 100000

/-- A JavaScript string: a list of UTF-16 code units (each `< 2^16`). -/
abbrev JSString := List Nat

/-- UTF-16 code units of a Lean `Char` (surrogate pair for astral planes). -/
def utf16OfChar (c : Char) : JSString :=
  let n := c.toNat
  if n < 0x10000 then [n]
  else [0xD800 + (n - 0x10000) / 0x400, 0xDC00 + (n - 0x10000) % 0x400]

/-- Embed a Lean string literal as a JavaScript string (UTF-16 units). -/
def jstr (s : String) : JSString :=
  (s.toList.map utf16OfChar).flatten

/-- The code-unit set removed by JavaScript `trimStart`/`trim`
(ECMAScript WhiteSpace plus LineTerminator). -/
def isJsWhitespace (u : Nat) : Bool :=
  u == 0x09 || u == 0x0A || u == 0x0B || u == 0x0C || u == 0x0D ||
  u == 0x20 || u == 0xA0 || u == 0x1680 ||
  (0x2000 ≤ u && u ≤ 0x200A) ||
  u == 0x2028 || u == 0x2029 || u == 0x202F || u == 0x205F ||
  u == 0x3000 || u == 0xFEFF

/-- JavaScript `String.prototype.trimStart`. -/
def jsTrimStart (s : JSString) : JSString :=
  s.dropWhile isJsWhitespace

/-- JavaScript `String.prototype.trim`. -/
def jsTrim (s : JSString) : JSString :=
  ((s.dropWhile isJsWhitespace).reverse.dropWhile isJsWhitespace).reverse

/-- Byte length of the UTF-8 encoding produced by `TextEncoder` from a
UTF-16 code-unit sequence.  A well-formed surrogate pair encodes to 4
bytes; a lone surrogate is replaced by U+FFFD (3 bytes). -/
def utf8Len : JSString → Nat
  | [] => 0
  | u :: rest =>
    if u < 0x80 then 1 + utf8Len rest
    else if u < 0x800 then 2 + utf8Len rest
    else if 0xD800 ≤ u && u < 0xDC00 then
      match rest with
      | v :: rest2 =>
        if 0xDC00 ≤ v && v < 0xE000 then 4 + utf8Len rest2
        else 3 + utf8Len (v :: rest2)
      | [] => 3
    else 3 + utf8Len rest

/-- Index of the first occurrence of `pat` in `s`
(JavaScript `String.prototype.indexOf`; the empty pattern matches at 0). -/
def firstIdx (s pat : JSString) : Option Nat :=
  if pat.isPrefixOf s then some 0
  else
    match s with
    | [] => none
    | _ :: t => (firstIdx t pat).map (· + 1)

/-- JavaScript `String.prototype.includes`. -/
def jsIncludes (s pat : JSString) : Bool :=
  (firstIdx s pat).isSome

/-- JavaScript `String.prototype.replace` with a string pattern: replaces
only the first occurrence (the replacement is inserted literally). -/
def jsReplaceFirst (s pat rep : JSString) : JSString :=
  match firstIdx s pat with
  | none => s
  | some i => s.take i ++ rep ++ s.drop (i + pat.length)

/-- ASCII fragment of `String.prototype.toLowerCase` (the error messages
classified by the retry logic are plain ASCII). -/
def jsToLower (s : JSString) : JSString :=
  s.map (fun u => if 65 ≤ u && u ≤ 90 then u + 32 else u)

/-- Split on the `/` character (JavaScript `"…".split("/")`). -/
def jsSplitSlash (s : JSString) : List JSString :=
  s.foldr
    (fun u acc =>
      match acc with
      | [] => if u == 47 then [[], []] else [[u]]
      | cur :: rest => if u == 47 then [] :: cur :: rest else (u :: cur) :: rest)
    [[]]

/-- Decimal digits of a natural number, as UTF-16 units
(JavaScript number-to-string for the footnote counter). -/
def natToDec (n : Nat) : JSString :=
  (Nat.toDigits 10 n).map Char.toNat

/-- Hexadecimal digits of a natural number, as UTF-16 units. -/
def natToHex (n : Nat) : JSString :=
  (Nat.toDigits 16 n).map Char.toNat

theorem utf16_us_flag : jstr "🇺🇸" = [0xD83C, 0xDDFA, 0xD83C, 0xDDF8] := by decide

theorem utf8Len_us_flag : utf8Len (jstr "🇺🇸") = 8 := by decide

/-!
## Data model (`shared/types.ts`)

The dynamic (duck-typed) fields the validator probes are modelled with
`Option`; a JavaScript falsy string is the empty code-unit list.
-/

/-- `post.record.text` is dynamically typed: the validator and the
sanitizer distinguish strings from non-string values (`typeof`). -/
inductive JsTextVal where
  | str (s : JSString)
  | num (n : Int)
deriving DecidableEq, Repr

/-- Byte range of a rich-text facet (`facet.index`). -/
structure FacetIndex where
  byteStart : Int
  byteEnd : Int
deriving DecidableEq, Repr

/-- One entry of `facet.features` (tagged by `$type`; `did`/`uri`/`tag`
are present only for the corresponding feature kind). -/
structure FacetFeature where
  ftype : Option JSString
  did : Option JSString
  uri : Option JSString
  tag : Option JSString
deriving DecidableEq, Repr

/-- A rich-text facet; `index` and `features` may be absent or of the
wrong shape in raw data, which the validator checks. -/
structure Facet where
  index : Option FacetIndex
  features : Option (List FacetFeature)
deriving DecidableEq, Repr

/-- One image of an images embed; `imageRef` models `image.image.ref`
(absent or empty when the blob reference is missing). -/
structure EmbedImage where
  alt : Option JSString
  imageRef : Option JSString
deriving DecidableEq, Repr

/-- External-link embed payload (`embed.external`). -/
structure EmbedExternal where
  uri : JSString
  title : Option JSString
deriving DecidableEq, Repr

/-- A post embed, a tagged union on `$type`.  `videoRef` models
`embed.video.ref` (`none` when `embed.video` or its `ref` is absent). -/
structure Embed where
  etype : JSString
  images : Option (List EmbedImage)
  videoRef : Option JSString
  external : Option EmbedExternal
deriving DecidableEq, Repr

/-- The post record (`post.record`). `reply` models presence of the reply
reference (only its presence is ever inspected). -/
structure PostRecord where
  text : Option JsTextVal
  createdAt : Option JSString
  facets : Option (List Facet)
  embed : Option Embed
  reply : Bool
deriving DecidableEq, Repr

/-- The post author. -/
structure Author where
  did : JSString
  handle : JSString
  displayName : Option JSString
deriving DecidableEq, Repr

/-- A source post (`ATProtoPost` in `shared/types.ts`).  `author` and
`record` are `Option` because the validator checks their presence. -/
structure ATProtoPost where
  uri : JSString
  cid : JSString
  author : Option Author
  record : Option PostRecord
  indexedAt : JSString
deriving DecidableEq, Repr

/-- Media item of a `PostTransformation`. -/
inductive MediaType where
  | image
  | video
deriving DecidableEq, Repr

/-- One transformed media entry (`{url, type, description}`). -/
structure MediaItem where
  url : JSString
  mtype : MediaType
  description : Option JSString
deriving DecidableEq, Repr

/-- One recorded mention (`{handle, profileUrl}`). -/
structure Mention where
  handle : JSString
  profileUrl : JSString
deriving DecidableEq, Repr

/-- One recorded link (`{url, displayText}`). -/
structure Link where
  url : JSString
  displayText : JSString
deriving DecidableEq, Repr

/-- The platform-neutral transformation record (`PostTransformation`). -/
structure PostTransformation where
  text : JSString
  media : List MediaItem
  mentions : List Mention
  links : List Link
  hashtags : List JSString
deriving DecidableEq, Repr

/-- A JavaScript `Error` (only its `message` is ever inspected). -/
structure JsError where
  message : JSString
deriving DecidableEq, Repr

/-- A created Mastodon post as returned by the destination client. -/
structure MastodonPost where
  id : JSString
  url : JSString
deriving DecidableEq, Repr

/-!
## `PostTransformer.generateContentHash` (post-transformer.ts, 124–146)

`JSON.stringify` of `{text, createdAt, author, embed}` (with `embed`
itself pre-serialized to a string or `null`), fed through the 31-ary
rolling hash `hashString` over UTF-16 code units with 32-bit wrap-around,
rendered via `Number.prototype.toString(16)`.
-/

/-- Two's-complement wrap to a signed 32-bit integer (`x & x` / `<<` in
JavaScript coerce through ToInt32). -/
def toInt32 (n : Int) : Int :=
  ((n + 2 ^ 31) % 2 ^ 32) - 2 ^ 31

/-- One step of `hashString`:
`hash = ((hash << 5) - hash) + char; hash = hash & hash`. -/
def hashStep (h : Int) (c : Nat) : Int :=
  toInt32 (toInt32 (h * 32) - h + c)

/-- `Number.prototype.toString(16)` for a signed 32-bit value. -/
def int32ToHex (h : Int) : JSString :=
  if h < 0 then 45 :: natToHex h.natAbs else natToHex h.toNat

/-- `PostTransformer.hashString`. -/
def hashString (s : JSString) : JSString :=
  int32ToHex (s.foldl hashStep 0)

/-- `JSON.stringify` escaping of one code unit inside a string literal
(quote, backslash, control characters; other units pass through —
the hashed content in this pipeline is ordinary text). -/
def jsonEscapeUnit (u : Nat) : JSString :=
  if u == 34 then [92, 34]
  else if u == 92 then [92, 92]
  else if u == 8 then [92, 98]
  else if u == 9 then [92, 116]
  else if u == 10 then [92, 110]
  else if u == 12 then [92, 102]
  else if u == 13 then [92, 114]
  else if u < 32 then
    [92, 117] ++ (List.replicate (4 - (natToHex u).length) 48 ++ natToHex u)
  else [u]

/-- `JSON.stringify` of a string value. -/
def jsonQuote (s : JSString) : JSString :=
  34 :: (s.map jsonEscapeUnit).flatten ++ [34]

/-- Decimal rendering of an integer (for `JSON.stringify` of a number). -/
def intToDec (n : Int) : JSString :=
  if n < 0 then 45 :: natToDec n.natAbs else natToDec n.toNat

/-- `JSON.stringify(post.record.embed)`: serialization of the embed union
following the field order of the `shared/types.ts` interface. -/
def embedJson (e : Embed) : JSString :=
  let strOpt : Option JSString → JSString → JSString := fun v dflt =>
    match v with
    | some s => jsonQuote s
    | none => dflt
  jstr "\x7b\"$type\":" ++ jsonQuote e.etype ++
    (match e.images with
     | some imgs =>
       jstr ",\"images\":[" ++
         (List.intersperse (jstr ",")
           (imgs.map (fun img =>
             jstr "\x7b\"alt\":" ++ strOpt img.alt (jstr "null") ++
               jstr ",\"image\":\x7b\"ref\":" ++ strOpt img.imageRef (jstr "null") ++
               jstr "\x7d\x7d"))).flatten ++
         jstr "]"
     | none => []) ++
    (match e.videoRef with
     | some r => jstr ",\"video\":\x7b\"ref\":" ++ jsonQuote r ++ jstr "\x7d"
     | none => []) ++
    (match e.external with
     | some ext =>
       jstr ",\"external\":\x7b\"uri\":" ++ jsonQuote ext.uri ++
         jstr ",\"title\":" ++ strOpt ext.title (jstr "null") ++ jstr "\x7d"
     | none => []) ++
    jstr "\x7d"

/-- `JSON.stringify` of the content object assembled by
`generateContentHash` (keys in insertion order: text, createdAt, author,
embed; a key whose value is `undefined` is omitted by `JSON.stringify`). -/
def contentJson (p : ATProtoPost) : JSString :=
  let fields : List (Option JSString) :=
    [ (match p.record.bind (·.text) with
       | some (.str s) => some (jstr "\"text\":" ++ jsonQuote s)
       | some (.num n) => some (jstr "\"text\":" ++ intToDec n)
       | none => none),
      (match p.record.bind (·.createdAt) with
       | some s => some (jstr "\"createdAt\":" ++ jsonQuote s)
       | none => none),
      (match p.author.map (·.did) with
       | some did => some (jstr "\"author\":" ++ jsonQuote did)
       | none => none),
      some (jstr "\"embed\":" ++
        match p.record.bind (·.embed) with
        | some e => jsonQuote (embedJson e)
        | none => jstr "null") ]
  jstr "\x7b" ++ (List.intersperse (jstr ",") (fields.reduceOption)).flatten ++ jstr "\x7d"

/-- `PostTransformer.generateContentHash`. -/
def generateContentHash (p : ATProtoPost) : JSString :=
  hashString (contentJson p)

/-!
## `PostTransformer.formatForMastodon` (post-transformer.ts, 303–336)
-/

/-- The Mastodon character budget (`maxLength = 500`). -/
def mastodonMaxLength : Nat := 500

/-- The composed status before the length check: the transformation text
with each link's display text passed through `status.replace(displayText,
url)` in `links[]` order, followed by the mention footnote block. -/
def composedStatus (t : PostTransformation) : JSString :=
  let status := t.links.foldl (fun s l => jsReplaceFirst s l.displayText l.url) t.text
  if t.mentions.length > 0 then
    (t.mentions.enum.foldl
      (fun s p => s ++ jstr "\n(" ++ natToDec (p.1 + 1) ++ jstr ") " ++ p.2.profileUrl)
      (status ++ jstr "\n"))
  else status

/-- `PostTransformer.formatForMastodon`: returns `{status, media}`;
truncates to `maxLength - 4` units plus `"..."` when the composed status
exceeds `maxLength`. -/
def formatForMastodon (t : PostTransformation) : JSString × List MediaItem :=
  let status := composedStatus t
  let status :=
    if status.length > mastodonMaxLength then
      status.take (mastodonMaxLength - 4) ++ jstr "..."
    else status
  (status, t.media)

/-!
## `PostTransformer.resolveBlobUrls` (post-transformer.ts, 240–266)

The ATProto client's `resolveBlobUrl` is an external collaborator; it is
passed in as a function that may throw (`Except`).
-/

/-- The body of `resolveBlobUrls`' `media.map`: resolve a `blob://`
placeholder (`item.url.replace("blob://", "")` strips the scheme); a
throwing resolver leaves the item unchanged, as does a non-`blob://`
URL. -/
def resolveMediaItem (resolveBlobUrl : JSString → Except JsError JSString)
    (item : MediaItem) : MediaItem :=
  if (jstr "blob://").isPrefixOf item.url then
    let blobRef := jsReplaceFirst item.url (jstr "blob://") []
    match resolveBlobUrl blobRef with
    | .ok resolvedUrl => { item with url := resolvedUrl }
    | .error _ => item
  else item

/-- `PostTransformer.resolveBlobUrls`: maps `resolveMediaItem` over
`media`, spreading the rest of the transformation unchanged. -/
def resolveBlobUrls (t : PostTransformation)
    (resolveBlobUrl : JSString → Except JsError JSString) : PostTransformation :=
  { t with media := t.media.map (resolveMediaItem resolveBlobUrl) }

/-!
## `ATProtoValidator` (atproto-validator.ts)

Validation errors are pushed as message strings in the source; they are
modelled as an inductive tag per push site (carrying the interpolated
indices), so that equality and membership of errors is preserved.
`new Date(s).getTime()` is external to the code (the engine's ISO-8601
parser), so `validatePost` takes a parse oracle `parseFinite` standing for
`!isNaN(new Date(s).getTime())`.
-/

/-- One validation error; each constructor corresponds to one
`errors.push(...)` site of `atproto-validator.ts` (constructor arguments
carry the indices interpolated into the message). -/
inductive ValidationErr where
  | textMissing                              -- "Post record must have a text field"
  | createdAtMissing                         -- "Post record must have a createdAt field"
  | textNotString                            -- "Post text must be a string"
  | createdAtInvalid                         -- "Post createdAt must be a valid ISO datetime string"
  | noContent                                -- "Post must have either text content or an embed"
  | textTooLong                              -- "Post text exceeds maximum length of 3000 characters"
  | facetsNotArray                           -- "Post facets must be an array"
  | facetIndexMissing (i : Nat)              -- "Facet {i}: missing or invalid index"
  | facetIndexNotNumeric (i : Nat)           -- "Facet {i}: index must have numeric byteStart and byteEnd"
  | facetIndexNegative (i : Nat)             -- "Facet {i}: index values must be non-negative"
  | facetRangeInvalid (i : Nat)              -- "Facet {i}: byteStart must be less than byteEnd"
  | facetFeaturesNotArray (i : Nat)          -- "Facet {i}: features must be an array"
  | featureTypeMissing (i j : Nat)           -- "Facet {i}, feature {j}: missing $type"
  | mentionDidInvalid (i j : Nat)            -- "Facet {i}, feature {j}: mention must have a valid did"
  | linkUriInvalid (i j : Nat)               -- "Facet {i}, feature {j}: link must have a valid uri"
  | tagInvalid (i j : Nat)                   -- "Facet {i}, feature {j}: tag must have a valid tag"
  | featureTypeUnknown (i j : Nat) (t : JSString) -- "Facet {i}, feature {j}: unknown feature type {t}"
  | embedTypeMissing                         -- "Embed: missing $type"
  | imagesNotArray                           -- "Images embed: images must be an array"
  | imagesEmpty                              -- "Images embed: must have at least one image"
  | imagesTooMany                            -- "Images embed: cannot have more than 4 images"
  | imageBlobMissing (i : Nat)               -- "Images embed, image {i}: missing image blob reference"
  | imageAltMissing (i : Nat)                -- "Images embed, image {i}: missing alt text"
  | videoBlobMissing                         -- "Video embed: missing video blob reference"
  | externalMissing                          -- "External embed: missing external object"
  | postUriInvalid                           -- "Post must have a valid URI"
  | postCidInvalid                           -- "Post must have a valid CID"
  | postAuthorMissing                        -- "Post must have a valid author object"
  | authorDidInvalid                         -- "Post author must have a valid DID"
  | authorHandleInvalid                      -- "Post author must have a valid handle"
  | postRecordMissing                        -- "Post must have a valid record object"
  | postIndexedAtInvalid                     -- "Post must have a valid indexedAt timestamp"
deriving DecidableEq, Repr

/-- Falsiness of an optional string field (`!x` is true when the field is
absent or the empty string). -/
def strFalsy : Option JSString → Bool
  | none => true
  | some s => s.isEmpty

/-- `ATProtoValidator.isValidDateTime`: the parse oracle models
`!isNaN(new Date(dateTime).getTime())`; the source additionally requires
the literal characters `"T"` and `"Z"` to occur in the string. -/
def isValidDateTime (parseFinite : JSString → Bool) (dateTime : JSString) : Bool :=
  parseFinite dateTime && jsIncludes dateTime (jstr "T") && jsIncludes dateTime (jstr "Z")

/-- One feature check of `ATProtoValidator.validateFacet` (the loop body
over `facet.features`). -/
def validateFeature (i j : Nat) (f : FacetFeature) : List ValidationErr :=
  match f.ftype with
  | none => [.featureTypeMissing i j]
  | some t =>
    if t.isEmpty then [.featureTypeMissing i j]
    else if t = jstr "app.bsky.richtext.facet#mention" then
      if strFalsy f.did then [.mentionDidInvalid i j] else []
    else if t = jstr "app.bsky.richtext.facet#link" then
      if strFalsy f.uri then [.linkUriInvalid i j] else []
    else if t = jstr "app.bsky.richtext.facet#tag" then
      if strFalsy f.tag then [.tagInvalid i j] else []
    else [.featureTypeUnknown i j t]

/-- `ATProtoValidator.validateFacet`.  The `typeof byteStart/byteEnd`
check cannot fire in this model (offsets are integers by construction);
the remaining checks follow the source order, with the early `return`
after a missing index or a non-array `features`. -/
def validateFacet (f : Facet) (i : Nat) : List ValidationErr :=
  match f.index with
  | none => [.facetIndexMissing i]
  | some idx =>
    (if idx.byteStart < 0 || idx.byteEnd < 0 then [.facetIndexNegative i] else []) ++
    (if idx.byteStart ≥ idx.byteEnd then [.facetRangeInvalid i] else []) ++
    (match f.features with
     | none => [.facetFeaturesNotArray i]
     | some feats => (feats.enum.map (fun p => validateFeature i p.1 p.2)).flatten)

/-- `ATProtoValidator.validateEmbed`: tagged-union validation; unknown
embed kinds pass through without errors. -/
def validateEmbed (e : Embed) : List ValidationErr :=
  if e.etype.isEmpty then [.embedTypeMissing]
  else if e.etype = jstr "app.bsky.embed.images" then
    match e.images with
    | none => [.imagesNotArray]
    | some imgs =>
      if imgs.length == 0 then [.imagesEmpty]
      else if imgs.length > 4 then [.imagesTooMany]
      else
        (imgs.enum.map (fun p =>
          (if strFalsy p.2.imageRef then [ValidationErr.imageBlobMissing p.1] else []) ++
          (if p.2.alt = none then [ValidationErr.imageAltMissing p.1] else []))).flatten
  else if e.etype = jstr "app.bsky.embed.video" then
    if strFalsy e.videoRef then [.videoBlobMissing] else []
  else if e.etype = jstr "app.bsky.embed.external" then
    if e.external = none then [.externalMissing] else []
  else []

/-- Truthiness of the dynamically-typed `record.text`. -/
def textTruthy : Option JsTextVal → Bool
  | none => false
  | some (.str s) => !s.isEmpty
  | some (.num n) => n != 0

/-- `ATProtoValidator.validatePost` (record-level validation).  The
`record.text.length > 3000` check applies JavaScript `.length` to the
value, which is `undefined` (hence not `> 3000`) for non-strings. -/
def validatePost (parseFinite : JSString → Bool) (r : PostRecord) : List ValidationErr :=
  (if r.text = none then [ValidationErr.textMissing] else []) ++
  (if r.createdAt = none then [ValidationErr.createdAtMissing] else []) ++
  (match r.text with
   | some (.num _) => [ValidationErr.textNotString]
   | _ => []) ++
  (match r.createdAt with
   | some s => if !isValidDateTime parseFinite s then [ValidationErr.createdAtInvalid] else []
   | none => []) ++
  (if !textTruthy r.text && r.embed = none then [ValidationErr.noContent] else []) ++
  (match r.text with
   | some (.str s) => if !s.isEmpty && s.length > 3000 then [ValidationErr.textTooLong] else []
   | _ => []) ++
  (match r.facets with
   | some facets => (facets.enum.map (fun p => validateFacet p.2 p.1)).flatten
   | none => []) ++
  (match r.embed with
   | some e => validateEmbed e
   | none => [])

/-- `ATProtoValidator.validateATProtoPost` (post-level validation). -/
def validateATProtoPost (parseFinite : JSString → Bool) (p : ATProtoPost) :
    List ValidationErr :=
  (if p.uri.isEmpty then [ValidationErr.postUriInvalid] else []) ++
  (if p.cid.isEmpty then [ValidationErr.postCidInvalid] else []) ++
  (match p.author with
   | none => [ValidationErr.postAuthorMissing]
   | some a =>
     (if a.did.isEmpty then [ValidationErr.authorDidInvalid] else []) ++
     (if a.handle.isEmpty then [ValidationErr.authorHandleInvalid] else [])) ++
  (match p.record with
   | none => [ValidationErr.postRecordMissing]
   | some r => validatePost parseFinite r) ++
  (if p.indexedAt.isEmpty then [ValidationErr.postIndexedAtInvalid] else [])

/-!
## `ATProtoValidator.sanitizePost` (atproto-validator.ts, 244–274)

The source does `const sanitized = { ...post }` — a **shallow** copy:
`sanitized.record` and `post.record` are the same object, so the
subsequent assignments `sanitized.record.text = ""`, the facet filter and
`delete sanitized.record.embed` all mutate the record of the input post as
well.  `sanitizeRecord` below is the net effect of those mutations on the
shared record; the returned value and the caller's input object after the
call are therefore equal as values, and both are given below.
-/

/-- Net effect of `sanitizePost`'s mutations on the (shared) record. -/
def sanitizeRecord (r : PostRecord) : PostRecord :=
  { r with
    text := (match r.text with
             | some (.str s) => some (.str s)
             | _ => some (.str [])),
    facets := r.facets.map (fun fs => fs.filter (fun f => validateFacet f 0 = [])),
    embed := (match r.embed with
              | some e => if validateEmbed e = [] then some e else none
              | none => none) }

/-- `ATProtoValidator.sanitizePost`: the returned object. -/
def sanitizePost (p : ATProtoPost) : ATProtoPost :=
  match p.record with
  | some r => { p with record := some (sanitizeRecord r) }
  | none => p

/-- The state of the *input* post object after `sanitizePost` returns.
Because the copy is shallow and every mutation targets the shared
`record`, the input ends up with the sanitized record too (its top-level
fields are untouched). -/
def sanitizePostInputAfter (p : ATProtoPost) : ATProtoPost :=
  match p.record with
  | some r => { p with record := some (sanitizeRecord r) }
  | none => p

/-!
## Post filter chain (post-filter.ts: Reply/Repost/Mention/Validation
filters combined by `DefaultPostFilter` via `Array.every`)

Filters after the validation filter run only on posts whose `record` is
present (on an absent record JavaScript would throw before reaching them);
their `record = none` cases below are unreachable in the combined chain.
-/

/-- The `settings` argument (`settings?.skip_mentions`). -/
structure Settings where
  skip_mentions : Bool
deriving DecidableEq, Repr

/-- `settings?.skip_mentions` with optional chaining on a possibly-null
settings object. -/
def skipMentionsOf : Option Settings → Bool
  | some s => s.skip_mentions
  | none => false

/-- The string value of the dynamically-typed text field (non-string text
cannot reach the filters that use it: validation rejects it first). -/
def textStr : Option JsTextVal → JSString
  | some (.str s) => s
  | _ => []

/-- `ReplyFilter.shouldSyncPost`: `!post.record.reply`. -/
def replyFilterShouldSync (p : ATProtoPost) : Bool :=
  match p.record with
  | some r => !r.reply
  | none => true

/-- `RepostFilter.shouldSyncPost`: rejects `app.bsky.embed.record` and
`app.bsky.embed.recordWithMedia` embeds. -/
def repostFilterShouldSync (p : ATProtoPost) : Bool :=
  match p.record with
  | some r =>
    match r.embed with
    | some e =>
      if e.etype = jstr "app.bsky.embed.record" then false
      else if e.etype = jstr "app.bsky.embed.recordWithMedia" then false
      else true
    | none => true
  | none => true

/-- Whether a facet feature is a mention
(`feature.$type === "app.bsky.richtext.facet#mention"`). -/
def isMentionFeature (f : FacetFeature) : Bool :=
  f.ftype == some (jstr "app.bsky.richtext.facet#mention")

/-- `MentionFilter.shouldSyncPost`: when `skip_mentions` is enabled,
rejects a post having a mention facet whose `byteStart` equals the UTF-8
byte length of the leading whitespace of the text (`facet.features?.some`
is false when `features` is absent; `facet.index.byteStart` is compared on
a present index — an absent index would throw in the source and cannot
pass the upstream validation filter). -/
def mentionFilterShouldSync (p : ATProtoPost) (settings : Option Settings) : Bool :=
  if !skipMentionsOf settings then true
  else
    match p.record with
    | none => true
    | some r =>
      match r.facets with
      | some facets =>
        if facets.length > 0 then
          let text := textStr r.text
          let trimmedText := jsTrimStart text
          let leadingWhitespaceChars := text.length - trimmedText.length
          let leadingWhitespaceBytes := utf8Len (text.take leadingWhitespaceChars)
          let mentionAtStart := facets.find? (fun facet =>
            (match facet.index with
             | some idx => idx.byteStart == (leadingWhitespaceBytes : Int)
             | none => false) &&
            (match facet.features with
             | some feats => feats.any isMentionFeature
             | none => false))
          if mentionAtStart.isSome then false else true
        else true
      | none => true

/-- `ValidationFilter.shouldSyncPost`: structural validation plus the
empty-content check `!post.record.text.trim() && !post.record.embed`. -/
def validationFilterShouldSync (parseFinite : JSString → Bool) (p : ATProtoPost) : Bool :=
  if !(validateATProtoPost parseFinite p).isEmpty then false
  else
    match p.record with
    | some r => !((jsTrim (textStr r.text)).isEmpty && r.embed = none)
    | none => false

/-- `DefaultPostFilter.shouldSyncPost`: the conjunction of the four
standard filters, in their registration order. -/
def defaultShouldSyncPost (parseFinite : JSString → Bool) (p : ATProtoPost)
    (settings : Option Settings) : Bool :=
  validationFilterShouldSync parseFinite p &&
  replyFilterShouldSync p &&
  repostFilterShouldSync p &&
  mentionFilterShouldSync p settings

/-!
## Retry machinery (mastodon-syncer.ts: `MastodonSyncer.isRetryableError`
and `crossPostWithRetry`)

The destination client is modelled by two functions indexed by the attempt
number (the client is an external, possibly stateful collaborator):
`uploadMedia attempt i` is the outcome of uploading the `i`-th media item,
and `createPost attempt status mediaIds` the outcome of creating the post.
Within one attempt, a media-upload failure is caught and that item is
omitted from `mediaIds`; only `createPost`'s exception escapes the
attempt's `try`.
-/

/-- `isRetryableError`: substring classification of the lower-cased
message (network/fetch/timeout, HTTP 5xx, rate limiting, media
processing). -/
def isRetryableError (e : JsError) : Bool :=
  let m := jsToLower e.message
  if jsIncludes m (jstr "fetch") || jsIncludes m (jstr "network") ||
     jsIncludes m (jstr "timeout") then true
  else if jsIncludes m (jstr "500") || jsIncludes m (jstr "502") ||
     jsIncludes m (jstr "503") || jsIncludes m (jstr "504") then true
  else if jsIncludes m (jstr "429") || jsIncludes m (jstr "rate limit") then true
  else if jsIncludes m (jstr "media processing") then true
  else false

/-- Retry configuration (`RetryConfig` in `shared/types.ts`). -/
structure RetryConfig where
  maxRetries : Nat
  baseDelay : Nat
  maxDelay : Nat
  backoffFactor : Nat
deriving DecidableEq, Repr

/-- The backoff delay computed before a retry:
`min(baseDelay * backoffFactor^attempt, maxDelay)`. -/
def backoffDelay (cfg : RetryConfig) (attempt : Nat) : Nat :=
  min (cfg.baseDelay * cfg.backoffFactor ^ attempt) cfg.maxDelay

/-- The destination (Mastodon) client, indexed by attempt number. -/
structure MastodonClientModel where
  uploadMedia : Nat → Nat → Except JsError JSString
  createPost : Nat → JSString → List JSString → Except JsError MastodonPost

/-- One attempt of `crossPostWithRetry`'s loop body: upload each media
item (failures are caught and the item omitted), format the transformation
for Mastodon, create the post. -/
def crossPostAttempt (client : MastodonClientModel) (t : PostTransformation)
    (attempt : Nat) : Except JsError MastodonPost :=
  let mediaIds := t.media.enum.filterMap
    (fun p => (client.uploadMedia attempt p.1).toOption)
  client.createPost attempt (formatForMastodon t).1 mediaIds

/-- The retry loop from a given attempt index, also counting the attempts
it performs.  The final `throw lastError` after the loop is unreachable
from attempt 0 (the loop always runs and every iteration either returns or
throws); it is modelled by re-throwing the carried error. -/
def crossPostFrom (cfg : RetryConfig) (client : MastodonClientModel)
    (t : PostTransformation) (lastError : JsError) (attempt : Nat) :
    Except JsError MastodonPost × Nat :=
  if attempt ≤ cfg.maxRetries then
    match crossPostAttempt client t attempt with
    | .ok post => (.ok post, 1)
    | .error e =>
      if attempt == cfg.maxRetries then (.error e, 1)
      else if !isRetryableError e then (.error e, 1)
      else
        let r := crossPostFrom cfg client t e (attempt + 1)
        (r.1, r.2 + 1)
  else (.error lastError, 0)
termination_by cfg.maxRetries + 1 - attempt
decreasing_by
  simp only [Nat.beq_eq_true_eq] at *
  omega

/-- `MastodonSyncer.crossPostWithRetry`, paired with the number of
attempts performed. -/
def crossPostWithRetry (cfg : RetryConfig) (client : MastodonClientModel)
    (t : PostTransformation) : Except JsError MastodonPost × Nat :=
  crossPostFrom cfg client t { message := jstr "null" } 0

/-!
## Orchestrator state and stores (memory-storage.ts, sync-service.ts,
setup-validator.ts, authentication-manager.ts, mastodon-syncer.ts)

The tracking store is a map keyed by `atproto_uri` (`Map.set` replaces an
existing entry); it is modelled as an association list.  The sync-log
store is append-only.  External effects are gathered in `SyncEnv`:
- `parseMs` models `new Date(s).getTime()` (`none` = `NaN`);
- `now` models `Date.now()` (constant within the modelled run);
- `fetchResult` is the outcome of `postFetcher.fetchPosts` over the fixed
  source feed;
- `resolveBlob` is `atprotoClient.resolveBlobUrl`;
- `transform` is `PostTransformer.transformPost`, whose rich-text
  segmentation comes from the external `@atproto/api` `RichText` library;
  the orchestrator theorems hold for *every* transformation function, so
  it is a parameter rather than a re-implementation of that library;
- `client` is the destination client and `cfg` the retry configuration.
-/

/-- `sync_status` of a tracking row. -/
inductive SyncStatus where
  | pending
  | success
  | failed
deriving DecidableEq, Repr

/-- A tracking row (`PostTracking`). -/
structure TrackingRecord where
  atproto_uri : JSString
  atproto_cid : JSString
  atproto_rkey : JSString
  content_hash : JSString
  atproto_created_at : Int
  sync_status : SyncStatus
  mastodon_id : Option JSString
  mastodon_url : Option JSString
  error_message : Option JSString
  retry_count : Nat
  synced_at : Option Int
deriving DecidableEq, Repr

/-- One entry of a sync result's `errors[]`. -/
structure SyncErrRec where
  postUri : JSString
  message : JSString
  retryable : Bool
deriving DecidableEq, Repr

/-- A sync-log row (`SyncLog`); `posts_skipped` is computed by a
JavaScript subtraction and may in principle be negative, hence `Int`. -/
structure SyncLogRecord where
  posts_fetched : Nat
  posts_synced : Nat
  posts_failed : Nat
  posts_skipped : Int
  error_message : Option JSString
  duration_ms : Int
deriving DecidableEq, Repr

/-- The single user account (the fields the sync path reads). -/
structure Account where
  setup_completed : Bool
  atproto_access_token : Option JSString
  atproto_refresh_token : Option JSString
  atproto_did : Option JSString
  atproto_pds_url : Option JSString
  mastodon_access_token : Option JSString
  mastodon_instance_url : Option JSString
  last_sync_at : Option Int
  last_sync_cursor : Option JSString
deriving DecidableEq, Repr

/-- The storage state threaded through a sync run. -/
structure StorageState where
  account : Option Account
  tracking : List TrackingRecord
  logs : List SyncLogRecord
deriving Repr

/-- `SyncResult` returned by `syncUser`. -/
structure SyncResultM where
  success : Bool
  postsProcessed : Nat
  postsSuccessful : Nat
  postsFailed : Nat
  errors : List SyncErrRec
deriving DecidableEq, Repr

/-- External collaborators of one sync run (fixed for the run). -/
structure SyncEnv where
  parseMs : JSString → Option Int
  now : Int
  fetchResult : Except JsError (List ATProtoPost × Option JSString)
  resolveBlob : JSString → Except JsError JSString
  transform : ATProtoPost → PostTransformation
  client : MastodonClientModel
  cfg : RetryConfig

/-- `postTracking.getByUri`. -/
def getByUri (st : List TrackingRecord) (uri : JSString) : Option TrackingRecord :=
  st.find? (fun r => r.atproto_uri == uri)

/-- `postTracking.create`: `Map.set` keyed by `atproto_uri` (replaces an
existing row with the same key, otherwise appends). -/
def trackingSet (st : List TrackingRecord) (r : TrackingRecord) : List TrackingRecord :=
  if (getByUri st r.atproto_uri).isSome then
    st.map (fun x => if x.atproto_uri == r.atproto_uri then r else x)
  else st ++ [r]

/-- `postTracking.updateByUri`: `Object.assign` of a partial update onto
the row with the given key (no-op when absent). -/
def updateByUri (st : List TrackingRecord) (uri : JSString)
    (upd : TrackingRecord → TrackingRecord) : List TrackingRecord :=
  st.map (fun x => if x.atproto_uri == uri then upd x else x)

/-- The `pending` tracking row created before the cross-post attempt
(`atproto_rkey` is the last `/`-segment of the URI; `atproto_created_at`
is `Math.floor(new Date(createdAt).getTime() / 1000)`). -/
def mkPendingRecord (E : SyncEnv) (post : ATProtoPost) : TrackingRecord :=
  { atproto_uri := post.uri
    atproto_cid := post.cid
    atproto_rkey := (jsSplitSlash post.uri).getLastD []
    content_hash := generateContentHash post
    atproto_created_at :=
      Int.fdiv ((post.record.bind (·.createdAt) |>.bind E.parseMs).getD 0) 1000
    sync_status := .pending
    mastodon_id := none
    mastodon_url := none
    error_message := none
    retry_count := 0
    synced_at := none }

/-- The partial update applied to the tracking row after a successful
cross-post. -/
def successUpdate (mp : MastodonPost) (now : Int) (r : TrackingRecord) : TrackingRecord :=
  { r with
    mastodon_id := some mp.id
    mastodon_url := some mp.url
    sync_status := .success
    synced_at := some (Int.fdiv now 1000) }

/-- The partial update applied to the tracking row after a failed
cross-post (the caller's `catch`). -/
def failedUpdate (e : JsError) (r : TrackingRecord) : TrackingRecord :=
  { r with
    sync_status := .failed
    error_message := some e.message
    retry_count := 0 }

/-- `MastodonSyncer.syncPostToMastodon`: create the pending row, transform
and resolve the post, cross-post with retry, and on success update the row
to `success`.  The thrown error (if any) is returned for the caller's
`catch`. -/
def syncPostToMastodon (E : SyncEnv) (st : List TrackingRecord)
    (post : ATProtoPost) : List TrackingRecord × Except JsError MastodonPost :=
  let st1 := trackingSet st (mkPendingRecord E post)
  let transformation := E.transform post
  let resolved := resolveBlobUrls transformation E.resolveBlob
  match (crossPostWithRetry E.cfg E.client resolved).1 with
  | .ok mp => (updateByUri st1 post.uri (successUpdate mp E.now), .ok mp)
  | .error e => (st1, .error e)

/-- One iteration of `MastodonSyncer.syncPosts`: attempt the post and, in
the `catch`, update its row to `failed` and record the error. -/
def syncPostsStep (E : SyncEnv)
    (acc : List TrackingRecord × Nat × Nat × List SyncErrRec)
    (post : ATProtoPost) : List TrackingRecord × Nat × Nat × List SyncErrRec :=
  match syncPostToMastodon E acc.1 post with
  | (st', .ok _) => (st', acc.2.1 + 1, acc.2.2.1, acc.2.2.2)
  | (st', .error e) =>
    (updateByUri st' post.uri (failedUpdate e),
     acc.2.1, acc.2.2.1 + 1,
     acc.2.2.2 ++ [{ postUri := post.uri, message := e.message,
                     retryable := isRetryableError e }])

/-- `MastodonSyncer.syncPosts`: iterate the posts, catching each post's
failure; one post's failure never aborts the batch. -/
def syncPosts (E : SyncEnv) (posts : List ATProtoPost)
    (st : List TrackingRecord) : List TrackingRecord × Nat × Nat × List SyncErrRec :=
  posts.foldl (syncPostsStep E) (st, 0, 0, [])

/-- `SyncService.filterPosts`: the filter chain, then the tracking-table
existence check by URI.  `syncUser` passes `settings` through from
`validateSetup`, whose result has no `settings` field, so the filters see
`undefined` (`none`). -/
def filterPosts (E : SyncEnv) (st : List TrackingRecord)
    (settings : Option Settings) (posts : List ATProtoPost) : List ATProtoPost :=
  posts.filter (fun post =>
    defaultShouldSyncPost (fun s => (E.parseMs s).isSome) post settings &&
    (getByUri st post.uri).isNone)

/-- Truthiness of an optional token field. -/
def tokenPresent (t : Option JSString) : Bool :=
  !strFalsy t

/-- `SetupValidator.validateSetup`'s `shouldProceed` for a present
account: setup completed and both access tokens present. -/
def shouldProceed (a : Account) : Bool :=
  a.setup_completed && tokenPresent a.atproto_access_token &&
    tokenPresent a.mastodon_access_token

/-- `AuthenticationManager.validateAuthenticationAndCreateClients`:
credential checks (client construction itself is part of `SyncEnv`). -/
def authValidate (a : Account) : Except JsError Unit :=
  if !(tokenPresent a.atproto_access_token && tokenPresent a.atproto_pds_url &&
       tokenPresent a.atproto_did) then
    .error { message := jstr "Missing ATProto credentials" }
  else if !(tokenPresent a.mastodon_access_token &&
            tokenPresent a.mastodon_instance_url) then
    .error { message := jstr "Missing Mastodon credentials" }
  else .ok ()

/-- The sync-log row appended at the end of a run (`duration_ms` is the
difference of two `Date.now()` reads, both modelled by `E.now`). -/
def mkLog (r : SyncResultM) : SyncLogRecord :=
  { posts_fetched := r.postsProcessed
    posts_synced := r.postsSuccessful
    posts_failed := r.postsFailed
    posts_skipped :=
      (r.postsProcessed : Int) - (r.postsSuccessful : Int) - (r.postsFailed : Int)
    error_message := (r.errors.head?).map (·.message)
    duration_ms := 0 }

/-- Append the run's sync-log row to the store. -/
def appendLog (r : SyncResultM) (S : StorageState) : StorageState :=
  { S with logs := S.logs ++ [mkLog r] }

/-- The empty result initialized at the top of `syncUser`. -/
def emptyResult : SyncResultM :=
  { success := false, postsProcessed := 0, postsSuccessful := 0,
    postsFailed := 0, errors := [] }

/-- The result recorded when an error is caught by `syncUser`'s outer
`catch` (`postUri: "general"`). -/
def generalFailure (r : SyncResultM) (msg : JSString) : SyncResultM :=
  { r with errors := r.errors ++
      [{ postUri := jstr "general", message := msg, retryable := false }] }

/-- `SyncService.syncUser` (sync-service.ts).  The unconfigured paths
(`shouldProceed` false) `return` from inside the `try` and therefore skip
the sync-log append at the bottom of the function; an absent account makes
`validateSetup` throw, which the outer `catch` turns into a logged
`general` error. -/
def syncUser (E : SyncEnv) (S : StorageState) : StorageState × SyncResultM :=
  match S.account with
  | none =>
    let r := generalFailure emptyResult (jstr "User account not found")
    (appendLog r S, r)
  | some account =>
    if !shouldProceed account then
      (S, { emptyResult with success := true })
    else
      match authValidate account with
      | .error e =>
        let r := generalFailure emptyResult e.message
        (appendLog r S, r)
      | .ok _ =>
        match E.fetchResult with
        | .error e =>
          let r := generalFailure emptyResult e.message
          (appendLog r S, r)
        | .ok (posts, newCursor) =>
          let filtered := filterPosts E S.tracking none posts
          let sp := syncPosts E filtered S.tracking
          let account' := { account with
            last_sync_at := some E.now
            last_sync_cursor := newCursor }
          let r : SyncResultM :=
            { success := true
              postsProcessed := posts.length
              postsSuccessful := sp.2.1
              postsFailed := sp.2.2.1
              errors := sp.2.2.2 }
          (appendLog r { S with account := some account', tracking := sp.1 }, r)

/-!
## Theorems
-/

theorem jstr_dots : jstr "..." = [46, 46, 46] := by decide

/-- C3 counterexample input: a 600-character text, no links or mentions. -/
def overlongTransformation : PostTransformation :=
  { text := List.replicate 600 65, media := [], mentions := [],
    links := [], hashtags := [] }

/-- C3, counterexample: on a composed status longer than the budget the
returned status has length 499, not the budget 500 claimed. -/
theorem formatForMastodon_length_ne_budget :
    (composedStatus overlongTransformation).length > mastodonMaxLength ∧
    (formatForMastodon overlongTransformation).1.length ≠ mastodonMaxLength ∧
    (formatForMastodon overlongTransformation).1.length = 499 := by
  refine ⟨by decide, by decide, by decide⟩

/-- C3, amended: the returned status never exceeds the 500-unit budget,
and whenever the composed status exceeds the budget the returned status
has length exactly `budget - 1 = 499` and ends in `"..."`. -/
theorem formatForMastodon_truncation (t : PostTransformation) :
    (formatForMastodon t).1.length ≤ mastodonMaxLength ∧
    ((composedStatus t).length > mastodonMaxLength →
      (formatForMastodon t).1.length = mastodonMaxLength - 1 ∧
      (formatForMastodon t).1.drop ((formatForMastodon t).1.length - 3) = jstr "...") := by
  unfold formatForMastodon
  by_cases h : (composedStatus t).length > mastodonMaxLength
  · simp only [h, if_true]
    have hlen : ((composedStatus t).take (mastodonMaxLength - 4)).length
        = mastodonMaxLength - 4 := by
      rw [List.length_take]
      unfold mastodonMaxLength at h ⊢
      omega
    have htotal : ((composedStatus t).take (mastodonMaxLength - 4) ++ jstr "...").length
        = mastodonMaxLength - 1 := by
      rw [List.length_append, hlen, jstr_dots]
      rfl
    refine ⟨by rw [htotal]; decide, fun _ => ⟨htotal, ?_⟩⟩
    rw [htotal]
    have hidx : mastodonMaxLength - 1 - 3
        = ((composedStatus t).take (mastodonMaxLength - 4)).length := by
      rw [hlen]
      decide
    rw [hidx, List.drop_left]
  · simp only [h, if_false]
    exact ⟨by omega, fun hc => hc.elim⟩

/-- C3 witness: the amended truncation property applied to the concrete
600-character transformation. -/
theorem formatForMastodon_truncation_witness :
    (formatForMastodon overlongTransformation).1.length = mastodonMaxLength - 1 ∧
    (formatForMastodon overlongTransformation).1.drop
      ((formatForMastodon overlongTransformation).1.length - 3) = jstr "..." :=
  (formatForMastodon_truncation overlongTransformation).2 (by decide)

/-- `firstIdx` finds an occurrence: the pattern occurs at the returned
index, and at no earlier index. -/
theorem firstIdx_spec (s pat : JSString) (i : Nat) (h : firstIdx s pat = some i) :
    pat.isPrefixOf (s.drop i) = true ∧
    ∀ j < i, pat.isPrefixOf (s.drop j) = false := by
  induction s generalizing i with
  | nil =>
    cases hp : pat.isPrefixOf ([] : JSString) with
    | true =>
      simp only [firstIdx, hp, if_true, Option.some.injEq] at h
      subst h
      exact ⟨hp, fun j hj => absurd hj (Nat.not_lt_zero j)⟩
    | false =>
      simp [firstIdx, hp] at h
  | cons a t ih =>
    cases hp : pat.isPrefixOf (a :: t) with
    | true =>
      simp only [firstIdx, hp, if_true, Option.some.injEq] at h
      subst h
      exact ⟨hp, fun j hj => absurd hj (Nat.not_lt_zero j)⟩
    | false =>
      simp only [firstIdx, hp, Bool.false_eq_true, if_false,
        Option.map_eq_some'] at h
      obtain ⟨i', hi', rfl⟩ := h
      obtain ⟨h1, h2⟩ := ih i' hi'
      refine ⟨h1, ?_⟩
      intro j hj
      match j with
      | 0 => simpa using hp
      | j' + 1 => exact h2 j' (by omega)

/-- The splice shape of `jsReplaceFirst` at a found index. -/
theorem jsReplaceFirst_eq_splice (s pat rep : JSString) (i : Nat)
    (h : firstIdx s pat = some i) :
    jsReplaceFirst s pat rep = s.take i ++ rep ++ s.drop (i + pat.length) := by
  unfold jsReplaceFirst
  rw [h]

/-- C6 counterexample input: the display text `"ab"` occurs twice. -/
def doubleOccurrence : PostTransformation :=
  { text := jstr "ab ab", media := [], mentions := [],
    links := [{ url := jstr "https://u.example/e", displayText := jstr "ab" }],
    hashtags := [] }

/-- C6, counterexample: `String.prototype.replace` with a string pattern
replaces only the first occurrence, so after formatting an occurrence of
the link's display text remains in the body. -/
theorem formatForMastodon_second_occurrence_remains :
    (formatForMastodon doubleOccurrence).1 = jstr "https://u.example/e ab" ∧
    jsIncludes (formatForMastodon doubleOccurrence).1 (jstr "ab") = true := by
  refine ⟨by decide, by decide⟩

/-- C6, amended: for a transformation with a single link (and no
mentions, and a composed status within budget), formatting replaces
exactly the *first* occurrence of the link's display text with its url:
the status is the splice at the first occurrence index, and no occurrence
starts earlier. -/
theorem formatForMastodon_replaces_first (t : PostTransformation) (l : Link) (i : Nat)
    (hl : t.links = [l]) (hm : t.mentions = [])
    (hi : firstIdx t.text l.displayText = some i)
    (hb : (composedStatus t).length ≤ mastodonMaxLength) :
    (formatForMastodon t).1 =
      t.text.take i ++ l.url ++ t.text.drop (i + l.displayText.length) ∧
    ∀ j < i, l.displayText.isPrefixOf (t.text.drop j) = false := by
  have hcomp : composedStatus t = jsReplaceFirst t.text l.displayText l.url := by
    unfold composedStatus
    rw [hl, hm]
    rfl
  have hfmt : (formatForMastodon t).1 = composedStatus t := by
    unfold formatForMastodon
    have : ¬ (composedStatus t).length > mastodonMaxLength := by omega
    simp [this]
  rw [hfmt, hcomp, jsReplaceFirst_eq_splice t.text l.displayText l.url i hi]
  exact ⟨rfl, (firstIdx_spec t.text l.displayText i hi).2⟩

/-- C6 witness input: `"ab"` first occurs at index 3. -/
def singleLinkTransformation : PostTransformation :=
  { text := jstr "Go ab now ab", media := [], mentions := [],
    links := [{ url := jstr "https://u.example/e", displayText := jstr "ab" }],
    hashtags := [] }

/-- C6 witness: the amended first-occurrence property at a concrete
transformation. -/
theorem formatForMastodon_replaces_first_witness :
    (formatForMastodon singleLinkTransformation).1 =
      (jstr "Go ab now ab").take 3 ++ jstr "https://u.example/e" ++
        (jstr "Go ab now ab").drop 5 ∧
    ∀ j < 3, (jstr "ab").isPrefixOf ((jstr "Go ab now ab").drop j) = false :=
  formatForMastodon_replaces_first singleLinkTransformation
    { url := jstr "https://u.example/e", displayText := jstr "ab" } 3
    rfl rfl (by decide) (by decide)

/-- C10: `resolveBlobUrls` is a frame-preserving map over `media`: text,
mentions, links and hashtags are returned unchanged; the media list is the
item-wise image of `resolveMediaItem` (same length and order); a
non-`blob://` item is unchanged; type and description are never modified;
and a `blob://` item whose resolution throws keeps its placeholder. -/
theorem resolveBlobUrls_frame (t : PostTransformation)
    (resolve : JSString → Except JsError JSString) :
    (resolveBlobUrls t resolve).text = t.text ∧
    (resolveBlobUrls t resolve).mentions = t.mentions ∧
    (resolveBlobUrls t resolve).links = t.links ∧
    (resolveBlobUrls t resolve).hashtags = t.hashtags ∧
    (resolveBlobUrls t resolve).media.length = t.media.length ∧
    (resolveBlobUrls t resolve).media = t.media.map (resolveMediaItem resolve) ∧
    (∀ item : MediaItem, (jstr "blob://").isPrefixOf item.url = false →
      resolveMediaItem resolve item = item) ∧
    (∀ item : MediaItem,
      (resolveMediaItem resolve item).mtype = item.mtype ∧
      (resolveMediaItem resolve item).description = item.description) ∧
    (∀ (item : MediaItem) (e : JsError),
      resolve (jsReplaceFirst item.url (jstr "blob://") []) = .error e →
      resolveMediaItem resolve item = item) := by
  refine ⟨rfl, rfl, rfl, rfl, by simp [resolveBlobUrls], rfl, ?_, ?_, ?_⟩
  · intro item hnb
    unfold resolveMediaItem
    simp [hnb]
  · intro item
    unfold resolveMediaItem
    cases hb : (jstr "blob://").isPrefixOf item.url
    · simp [hb]
    · simp only [hb, if_true]
      cases hr : resolve (jsReplaceFirst item.url (jstr "blob://") []) <;> simp [hr]
  · intro item e he
    unfold resolveMediaItem
    cases hb : (jstr "blob://").isPrefixOf item.url
    · simp [hb]
    · simp [hb, he]

/-- C10 witness: a three-item media list (a resolvable `blob://` item, a
non-blob item, and a `blob://` item whose resolution throws). -/
def mixedMediaTransformation : PostTransformation :=
  { text := jstr "pic", media :=
      [ { url := jstr "blob://r1", mtype := .image, description := some (jstr "a") },
        { url := jstr "https://cdn.example/x.png", mtype := .image, description := none },
        { url := jstr "blob://bad", mtype := .video, description := none } ],
    mentions := [], links := [], hashtags := [] }

/-- C10 witness resolver: resolves `r1`, throws on anything else. -/
def mixedMediaResolver (ref : JSString) : Except JsError JSString :=
  if ref = jstr "r1" then .ok (jstr "https://pds.example/blob/r1")
  else .error { message := jstr "resolve failed" }

/-- C10 witness: the frame property applied to the concrete mixed media
list, discharging the per-item hypotheses on its items. -/
theorem resolveBlobUrls_frame_witness :
    (resolveBlobUrls mixedMediaTransformation mixedMediaResolver).text
      = mixedMediaTransformation.text ∧
    resolveMediaItem mixedMediaResolver
        { url := jstr "https://cdn.example/x.png", mtype := .image, description := none }
      = { url := jstr "https://cdn.example/x.png", mtype := .image, description := none } ∧
    resolveMediaItem mixedMediaResolver
        { url := jstr "blob://bad", mtype := .video, description := none }
      = { url := jstr "blob://bad", mtype := .video, description := none } :=
  ⟨(resolveBlobUrls_frame mixedMediaTransformation mixedMediaResolver).1,
   (resolveBlobUrls_frame mixedMediaTransformation mixedMediaResolver).2.2.2.2.2.2.1
     _ (by decide),
   (resolveBlobUrls_frame mixedMediaTransformation mixedMediaResolver).2.2.2.2.2.2.2.2
     _ { message := jstr "resolve failed" } rfl⟩

/-- A sample post used for the content-hash theorems, parameterized by
its text. -/
def hashProbePost (text : JSString) : ATProtoPost :=
  { uri := jstr "at://did:plc:test/app.bsky.feed.post/1"
    cid := jstr "test_cid"
    author := some { did := jstr "did:plc:test", handle := jstr "test.example",
                     displayName := none }
    record := some { text := some (.str text)
                     createdAt := some (jstr "2024-01-01T10:00:00Z")
                     facets := some []
                     embed := none
                     reply := false }
    indexedAt := jstr "2024-01-01T10:00:00Z" }

/-- C9, counterexample: two posts agreeing on createdAt, author id and
(absent) embed but with different texts `"Aa"` and `"BB"` collide in the
32-bit rolling hash, so `generateContentHash` does not separate different
texts. -/
theorem generateContentHash_collision :
    (hashProbePost (jstr "Aa")).record.bind (·.text)
      ≠ (hashProbePost (jstr "BB")).record.bind (·.text) ∧
    (hashProbePost (jstr "Aa")).record.bind (·.createdAt)
      = (hashProbePost (jstr "BB")).record.bind (·.createdAt) ∧
    (hashProbePost (jstr "Aa")).author.map (·.did)
      = (hashProbePost (jstr "BB")).author.map (·.did) ∧
    (hashProbePost (jstr "Aa")).record.bind (·.embed)
      = (hashProbePost (jstr "BB")).record.bind (·.embed) ∧
    generateContentHash (hashProbePost (jstr "Aa"))
      = generateContentHash (hashProbePost (jstr "BB")) := by
  refine ⟨by decide, by decide, by decide, by decide, by decide⟩

/-- C9, amended: `generateContentHash` is pure and deterministic — it
depends only on the `{text, createdAt, author.did, embed}` tuple — but
different texts may collide (it is a 32-bit rolling hash). -/
theorem generateContentHash_deterministic (p q : ATProtoPost)
    (ht : p.record.bind (·.text) = q.record.bind (·.text))
    (hc : p.record.bind (·.createdAt) = q.record.bind (·.createdAt))
    (ha : p.author.map (·.did) = q.author.map (·.did))
    (he : p.record.bind (·.embed) = q.record.bind (·.embed)) :
    generateContentHash p = generateContentHash q := by
  unfold generateContentHash contentJson
  rw [ht, hc, ha, he]

/-- A post agreeing with `hashProbePost "Aa"` on the hashed tuple but
differing in uri and cid. -/
def hashProbePostOtherUri : ATProtoPost :=
  { hashProbePost (jstr "Aa") with
      uri := jstr "at://other/uri"
      cid := jstr "other_cid" }

/-- C9 witness: two posts differing in uri and cid but agreeing on the
hashed tuple receive equal hashes. -/
theorem generateContentHash_deterministic_witness :
    generateContentHash (hashProbePost (jstr "Aa"))
      = generateContentHash hashProbePostOtherUri :=
  generateContentHash_deterministic _ _ rfl rfl rfl rfl

/-- C7 failing input: non-string text, an invalid facet (inverted byte
range, mention without did) and an invalid embed (empty images array). -/
def invalidTextPost : ATProtoPost :=
  { uri := jstr "at://did:plc:test/app.bsky.feed.post/1"
    cid := jstr "test_cid"
    author := some { did := jstr "did:plc:test", handle := jstr "test.example",
                     displayName := none }
    record := some
      { text := some (.num 123)
        createdAt := some (jstr "2024-01-01T10:00:00Z")
        facets := some [{ index := some { byteStart := 10, byteEnd := 5 },
                          features := some [{ ftype := some (jstr "app.bsky.richtext.facet#mention"),
                                              did := none, uri := none, tag := none }] }]
        embed := some { etype := jstr "app.bsky.embed.images", images := some [],
                        videoRef := none, external := none }
        reply := false }
    indexedAt := jstr "2024-01-01T10:00:00Z" }

/-- C7: `sanitizePost` returns the repaired value (text coerced to the
empty string, the invalid facet dropped, the invalid embed dropped), but —
because `{ ...post }` is a shallow copy whose `record` is shared with the
input — the input post's record is mutated by the very same repairs: the
input object after the call is *not* the original input. -/
theorem sanitizePost_mutates_input :
    (sanitizePost invalidTextPost).record = some
      { text := some (.str [])
        createdAt := some (jstr "2024-01-01T10:00:00Z")
        facets := some []
        embed := none
        reply := false } ∧
    sanitizePostInputAfter invalidTextPost ≠ invalidTextPost := by
  refine ⟨by decide, by decide⟩

/-- The per-feature validator never reports the createdAt error. -/
theorem createdAtInvalid_notin_validateFeature (i j : Nat) (feat : FacetFeature) :
    ValidationErr.createdAtInvalid ∉ validateFeature i j feat := by
  obtain ⟨ftype, did, uri, tag⟩ := feat
  unfold validateFeature
  rcases ftype with _ | t
  · simp
  · simp only
    repeat' split
    all_goals simp

/-- The facet validator never reports the createdAt error. -/
theorem createdAtInvalid_notin_validateFacet (f : Facet) (i : Nat) :
    ValidationErr.createdAtInvalid ∉ validateFacet f i := by
  obtain ⟨index, features⟩ := f
  unfold validateFacet
  rcases index with _ | idx
  · simp
  · intro hmem
    simp only [List.mem_append] at hmem
    rcases hmem with (h | h) | h
    · split at h <;> simp at h
    · split at h <;> simp at h
    · rcases features with _ | feats
      · simp at h
      · simp only [List.mem_flatten, List.mem_map] at h
        obtain ⟨l, ⟨⟨j, feat⟩, hjf, rfl⟩, hl⟩ := h
        exact createdAtInvalid_notin_validateFeature i j feat hl

/-- The embed validator never reports the createdAt error. -/
theorem createdAtInvalid_notin_validateEmbed (e : Embed) :
    ValidationErr.createdAtInvalid ∉ validateEmbed e := by
  obtain ⟨etype, images, videoRef, external⟩ := e
  unfold validateEmbed
  intro hmem
  split at hmem
  · simp at hmem
  · split at hmem
    · rcases images with _ | imgs
      · simp at hmem
      · simp only at hmem
        split at hmem
        · simp at hmem
        · split at hmem
          · simp at hmem
          · simp only [List.mem_flatten, List.mem_map] at hmem
            obtain ⟨l, ⟨⟨j, img⟩, hjf, rfl⟩, hl⟩ := hmem
            simp only [List.mem_append] at hl
            rcases hl with h | h
            · split at h <;> simp at h
            · split at h <;> simp at h
    · split at hmem
      · split at hmem <;> simp at hmem
      · split at hmem
        · split at hmem <;> simp at hmem
        · simp at hmem

/-- C8, amended: a createdAt string that parses to a finite timestamp and
contains both a `T` and a `Z` marker is accepted — the validator reports no
createdAt error.  (The source requires the literal `Z`; a numeric-offset
datetime without a `Z` is rejected, see the counterexample.) -/
theorem validatePost_accepts_datetime (parseFinite : JSString → Bool)
    (r : PostRecord) (s : JSString)
    (hc : r.createdAt = some s)
    (hp : parseFinite s = true)
    (hT : jsIncludes s (jstr "T") = true)
    (hZ : jsIncludes s (jstr "Z") = true) :
    ValidationErr.createdAtInvalid ∉ validatePost parseFinite r := by
  have hvalid : isValidDateTime parseFinite s = true := by
    unfold isValidDateTime
    rw [hp, hT, hZ]
    rfl
  obtain ⟨text, createdAt, facets, embed, reply⟩ := r
  simp only at hc
  subst hc
  unfold validatePost
  intro hmem
  simp only [List.mem_append] at hmem
  rcases hmem with ((((((h | h) | h) | h) | h) | h) | h) | h
  · split at h <;> simp at h
  · split at h <;> simp at h
  · revert h
    repeat' split
    all_goals simp
  · simp only [hvalid] at h
    simp at h
  · split at h <;> simp at h
  · revert h
    repeat' split
    all_goals simp
  · rcases facets with _ | facets
    · simp at h
    · simp only [List.mem_flatten, List.mem_map] at h
      obtain ⟨l, ⟨⟨i, f⟩, hif, rfl⟩, hl⟩ := h
      exact createdAtInvalid_notin_validateFacet f i hl
  · rcases embed with _ | e
    · simp at h
    · exact createdAtInvalid_notin_validateEmbed e h

/-- A record with the given createdAt string and unremarkable content. -/
def createdAtProbeRecord (createdAt : String) : PostRecord :=
  { text := some (.str (jstr "Hello world!"))
    createdAt := some (jstr createdAt)
    facets := some []
    embed := none
    reply := false }

/-- C8 witness: a `Z`-terminated ISO datetime is accepted (under the
always-finite parse oracle). -/
theorem validatePost_accepts_datetime_witness :
    ValidationErr.createdAtInvalid ∉
      validatePost (fun _ => true) (createdAtProbeRecord "2024-01-01T10:00:00Z") :=
  validatePost_accepts_datetime (fun _ => true)
    (createdAtProbeRecord "2024-01-01T10:00:00Z") (jstr "2024-01-01T10:00:00Z")
    rfl rfl (by decide) (by decide)

/-- C8, counterexample: a numeric-UTC-offset ISO datetime without a `Z`
(`2024-01-01T10:00:00+02:00`) is rejected with the createdAt error even
under a parse oracle that reports it as a finite timestamp, because
`isValidDateTime` demands the literal character `Z`. -/
theorem validatePost_rejects_offset_datetime :
    ValidationErr.createdAtInvalid ∈
      validatePost (fun _ => true) (createdAtProbeRecord "2024-01-01T10:00:00+02:00") := by
  decide

/-- C4: with `skip_mentions` enabled, a post whose text begins with a
non-whitespace (e.g. multi-byte) character is not classified as starting
with a mention as long as no facet has `byteStart = 0`: the filter
computes the *byte* offset of the first non-whitespace content, which is 0,
and a correctly-placed mention facet after a leading multi-byte character
has a positive `byteStart`. -/
theorem mentionFilter_leading_multibyte (settings : Option Settings)
    (p : ATProtoPost) (r : PostRecord) (u : Nat) (rest : JSString)
    (facets : List Facet)
    (hs : skipMentionsOf settings = true)
    (hr : p.record = some r)
    (ht : r.text = some (.str (u :: rest)))
    (hw : isJsWhitespace u = false)
    (hf : r.facets = some facets)
    (hb : ∀ f ∈ facets, ∀ idx, f.index = some idx → idx.byteStart ≠ 0) :
    mentionFilterShouldSync p settings = true := by
  unfold mentionFilterShouldSync
  rw [hs]
  simp only [Bool.not_true, Bool.false_eq_true, if_false]
  rw [hr]
  simp only
  rw [hf]
  simp only
  split
  · have htrim : jsTrimStart (textStr r.text) = textStr r.text := by
      rw [ht]
      unfold textStr jsTrimStart
      simp [List.dropWhile, hw]
    have hchars : (textStr r.text).length - (jsTrimStart (textStr r.text)).length = 0 := by
      rw [htrim]
      omega
    have hbytes : utf8Len ((textStr r.text).take
        ((textStr r.text).length - (jsTrimStart (textStr r.text)).length)) = 0 := by
      rw [hchars]
      simp [utf8Len]
    rw [hbytes]
    have hfind : facets.find? (fun facet =>
        (match facet.index with
         | some idx => idx.byteStart == ((0 : Nat) : Int)
         | none => false) &&
        (match facet.features with
         | some feats => feats.any isMentionFeature
         | none => false)) = none := by
      rw [List.find?_eq_none]
      intro f hfmem
      rcases hidx : f.index with _ | idx
      · simp [hidx]
      · have := hb f hfmem idx hidx
        simp only [hidx, Bool.and_eq_true]
        intro hcon
        rcases hcon with ⟨h1, _⟩
        simp only [beq_iff_eq, Nat.cast_zero] at h1
        exact this (by exact_mod_cast h1)
    rw [hfind]
    rfl
  · rfl

/-- C4 witness input: a post whose text starts with the flag emoji 🇺🇸
(8 UTF-8 bytes) immediately followed by a mention whose facet starts at
byte 8. -/
def flagMentionPost : ATProtoPost :=
  { uri := jstr "at://did:plc:test/app.bsky.feed.post/1"
    cid := jstr "test_cid"
    author := some { did := jstr "did:plc:test", handle := jstr "test.example",
                     displayName := none }
    record := some
      { text := some (.str (jstr "🇺🇸@user.example hi"))
        createdAt := some (jstr "2024-01-01T10:00:00Z")
        facets := some [{ index := some { byteStart := 8, byteEnd := 21 },
                          features := some [{ ftype := some (jstr "app.bsky.richtext.facet#mention"),
                                              did := some (jstr "did:plc:user"),
                                              uri := none, tag := none }] }]
        embed := none
        reply := false }
    indexedAt := jstr "2024-01-01T10:00:00Z" }

/-- C4 witness: the mention filter lets the flag-emoji post through with
`skip_mentions` enabled. -/
theorem mentionFilter_leading_multibyte_witness :
    mentionFilterShouldSync flagMentionPost (some { skip_mentions := true }) = true :=
  mentionFilter_leading_multibyte (some { skip_mentions := true })
    flagMentionPost
    { text := some (.str (jstr "🇺🇸@user.example hi"))
      createdAt := some (jstr "2024-01-01T10:00:00Z")
      facets := some [{ index := some { byteStart := 8, byteEnd := 21 },
                        features := some [{ ftype := some (jstr "app.bsky.richtext.facet#mention"),
                                            did := some (jstr "did:plc:user"),
                                            uri := none, tag := none }] }]
      embed := none
      reply := false }
    0xD83C ((jstr "🇺🇸@user.example hi").drop 1)
    [{ index := some { byteStart := 8, byteEnd := 21 },
       features := some [{ ftype := some (jstr "app.bsky.richtext.facet#mention"),
                           did := some (jstr "did:plc:user"),
                           uri := none, tag := none }] }]
    rfl rfl (by decide) (by decide) rfl
    (by
      intro f hf idx hidx
      simp only [List.mem_singleton] at hf
      subst hf
      simp only [Option.some.injEq] at hidx
      subst hidx
      decide)

/-- Retry loop invariant: against a client whose `createPost` always
throws a retryable error, the loop started at `attempt ≤ maxRetries`
performs the remaining `maxRetries + 1 - attempt` attempts and surfaces
the final attempt's error. -/
theorem crossPostFrom_exhausts (cfg : RetryConfig) (client : MastodonClientModel)
    (t : PostTransformation) (err : Nat → JsError)
    (hfail : ∀ a s ids, client.createPost a s ids = .error (err a))
    (hretry : ∀ a, isRetryableError (err a) = true) :
    ∀ d attempt le, cfg.maxRetries - attempt = d → attempt ≤ cfg.maxRetries →
      crossPostFrom cfg client t le attempt
        = (.error (err cfg.maxRetries), cfg.maxRetries + 1 - attempt) := by
  intro d
  induction d with
  | zero =>
    intro attempt le hd hle
    have hatt : attempt = cfg.maxRetries := by omega
    subst hatt
    rw [crossPostFrom]
    have hca : crossPostAttempt client t cfg.maxRetries
        = .error (err cfg.maxRetries) := hfail _ _ _
    rw [if_pos (le_refl cfg.maxRetries), hca]
    simp
  | succ d ih =>
    intro attempt le hd hle
    have hlt : attempt < cfg.maxRetries := by omega
    rw [crossPostFrom]
    have hca : crossPostAttempt client t attempt = .error (err attempt) := hfail _ _ _
    rw [if_pos hle, hca]
    have hne : (attempt == cfg.maxRetries) = false := by
      cases hb : attempt == cfg.maxRetries with
      | false => rfl
      | true => exact absurd (beq_iff_eq.mp hb) (by omega)
    simp only [hne, Bool.false_eq_true, if_false, hretry attempt, Bool.not_true]
    rw [ih (attempt + 1) (err attempt) (by omega) (by omega)]
    simp only [Prod.mk.injEq, true_and]
    omega

/-- C2: with `maxRetries = N` and a destination client whose `createPost`
always throws a retryable error, `crossPostWithRetry` performs exactly
`N + 1` attempts (indices `0..N`) and throws exactly the error raised by
the final attempt, unchanged. -/
theorem crossPostWithRetry_retry_bound (cfg : RetryConfig)
    (client : MastodonClientModel) (t : PostTransformation) (err : Nat → JsError)
    (hfail : ∀ a s ids, client.createPost a s ids = .error (err a))
    (hretry : ∀ a, isRetryableError (err a) = true) :
    crossPostWithRetry cfg client t
      = (.error (err cfg.maxRetries), cfg.maxRetries + 1) := by
  unfold crossPostWithRetry
  rw [crossPostFrom_exhausts cfg client t err hfail hretry (cfg.maxRetries - 0) 0
    { message := jstr "null" } rfl (Nat.zero_le _)]
  norm_num

/-- `"Network error"` is classified retryable. -/
theorem network_error_retryable :
    isRetryableError { message := jstr "Network error" } = true := by decide

/-- C2 witness retry configuration: `maxRetries = 2`. -/
def retryCfgTwo : RetryConfig :=
  { maxRetries := 2, baseDelay := 1000, maxDelay := 30000, backoffFactor := 2 }

/-- C2 witness client: every `createPost` throws `"Network error"`
(classified retryable); uploads also fail (they are swallowed). -/
def alwaysFailingClient : MastodonClientModel :=
  { uploadMedia := fun _ _ => .error { message := jstr "upload failed" }
    createPost := fun _ _ _ => .error { message := jstr "Network error" } }

/-- C2 witness: with `maxRetries = 2` the always-failing retryable client
is attempted exactly 3 times and the last error is surfaced unchanged. -/
theorem crossPostWithRetry_retry_bound_witness :
    crossPostWithRetry retryCfgTwo alwaysFailingClient
        { text := jstr "hi", media := [], mentions := [], links := [], hashtags := [] }
      = (.error { message := jstr "Network error" }, 3) :=
  crossPostWithRetry_retry_bound retryCfgTwo alwaysFailingClient _
    (fun _ => { message := jstr "Network error" })
    (fun _ _ _ => rfl) (fun _ => network_error_retryable)

/-- A tracking row with the given uri makes `getByUri` succeed. -/
theorem getByUri_isSome_of_mem (st : List TrackingRecord) (r : TrackingRecord)
    (hmem : r ∈ st) : (getByUri st r.atproto_uri).isSome = true := by
  unfold getByUri
  rw [List.find?_isSome]
  exact ⟨r, hmem, by simp⟩

/-- `trackingSet` makes the inserted uri present. -/
theorem getByUri_trackingSet_self (st : List TrackingRecord) (r : TrackingRecord) :
    (getByUri (trackingSet st r) r.atproto_uri).isSome = true := by
  unfold trackingSet
  split
  · rename_i hpresent
    unfold getByUri at hpresent ⊢
    rw [List.find?_isSome] at hpresent ⊢
    obtain ⟨x, hx, hxu⟩ := hpresent
    refine ⟨r, ?_, by simp⟩
    rw [List.mem_map]
    exact ⟨x, hx, by simp [hxu]⟩
  · exact getByUri_isSome_of_mem _ r (by simp)

/-- `trackingSet` preserves presence of every uri. -/
theorem getByUri_trackingSet_mono (st : List TrackingRecord) (r : TrackingRecord)
    (u : JSString) (h : (getByUri st u).isSome = true) :
    (getByUri (trackingSet st r) u).isSome = true := by
  unfold trackingSet
  split
  · unfold getByUri at h ⊢
    rw [List.find?_isSome] at h ⊢
    obtain ⟨x, hx, hxu⟩ := h
    by_cases hxr : (x.atproto_uri == r.atproto_uri) = true
    · refine ⟨r, ?_, ?_⟩
      · rw [List.mem_map]
        exact ⟨x, hx, by simp [hxr]⟩
      · have h1 : x.atproto_uri = r.atproto_uri := by simpa using hxr
        have h2 : x.atproto_uri = u := by simpa using hxu
        simp [← h1, h2]
    · refine ⟨x, ?_, hxu⟩
      rw [List.mem_map]
      refine ⟨x, hx, ?_⟩
      simp [hxr]
  · unfold getByUri at h ⊢
    rw [List.find?_isSome] at h ⊢
    obtain ⟨x, hx, hxu⟩ := h
    exact ⟨x, List.mem_append_left _ hx, hxu⟩

/-- `updateByUri` with a uri-preserving update preserves presence of every
uri. -/
theorem getByUri_updateByUri_mono (st : List TrackingRecord) (u' u : JSString)
    (upd : TrackingRecord → TrackingRecord)
    (hupd : ∀ x, (upd x).atproto_uri = x.atproto_uri)
    (h : (getByUri st u).isSome = true) :
    (getByUri (updateByUri st u' upd) u).isSome = true := by
  unfold updateByUri
  unfold getByUri at h ⊢
  rw [List.find?_isSome] at h ⊢
  obtain ⟨x, hx, hxu⟩ := h
  refine ⟨if x.atproto_uri == u' then upd x else x, ?_, ?_⟩
  · rw [List.mem_map]
    exact ⟨x, hx, rfl⟩
  · split
    · simpa [hupd x] using hxu
    · exact hxu

/-- `syncPostToMastodon` records the post's uri and preserves all tracked
uris. -/
theorem syncPostToMastodon_tracked (E : SyncEnv) (st : List TrackingRecord)
    (post : ATProtoPost) :
    (getByUri (syncPostToMastodon E st post).1 post.uri).isSome = true ∧
    ∀ u, (getByUri st u).isSome = true →
      (getByUri (syncPostToMastodon E st post).1 u).isSome = true := by
  unfold syncPostToMastodon
  have hpend : (mkPendingRecord E post).atproto_uri = post.uri := rfl
  have hupd : ∀ (mp : MastodonPost) (x : TrackingRecord),
      (successUpdate mp E.now x).atproto_uri = x.atproto_uri := fun _ _ => rfl
  dsimp only
  split
  · dsimp only
    rename_i mp _
    constructor
    · apply getByUri_updateByUri_mono _ _ _ _ (hupd mp)
      rw [← hpend]
      exact getByUri_trackingSet_self st _
    · intro u hu
      apply getByUri_updateByUri_mono _ _ _ _ (hupd mp)
      exact getByUri_trackingSet_mono st _ u hu
  · dsimp only
    constructor
    · rw [← hpend]
      exact getByUri_trackingSet_self st _
    · intro u hu
      exact getByUri_trackingSet_mono st _ u hu

/-- One `syncPosts` iteration records the post's uri and preserves all
tracked uris. -/
theorem syncPostsStep_tracked (E : SyncEnv)
    (acc : List TrackingRecord × Nat × Nat × List SyncErrRec) (post : ATProtoPost) :
    (getByUri (syncPostsStep E acc post).1 post.uri).isSome = true ∧
    ∀ u, (getByUri acc.1 u).isSome = true →
      (getByUri (syncPostsStep E acc post).1 u).isSome = true := by
  unfold syncPostsStep
  have h := syncPostToMastodon_tracked E acc.1 post
  cases hs : syncPostToMastodon E acc.1 post with
  | mk st' res =>
    rw [hs] at h
    cases res with
    | ok mp =>
      simp only
      exact ⟨h.1, h.2⟩
    | error e =>
      simp only
      have hupd : ∀ x : TrackingRecord,
          (failedUpdate e x).atproto_uri = x.atproto_uri := fun _ => rfl
      constructor
      · exact getByUri_updateByUri_mono _ _ _ _ hupd h.1
      · intro u hu
        exact getByUri_updateByUri_mono _ _ _ _ hupd (h.2 u hu)

/-- The `syncPosts` fold records every processed post's uri and preserves
all tracked uris. -/
theorem syncPosts_fold_tracked (E : SyncEnv) (posts : List ATProtoPost) :
    ∀ acc : List TrackingRecord × Nat × Nat × List SyncErrRec,
    (∀ u, (getByUri acc.1 u).isSome = true →
      (getByUri (posts.foldl (syncPostsStep E) acc).1 u).isSome = true) ∧
    (∀ p ∈ posts, (getByUri (posts.foldl (syncPostsStep E) acc).1 p.uri).isSome = true) := by
  induction posts with
  | nil => exact fun acc => ⟨fun u hu => hu, fun p hp => absurd hp (List.not_mem_nil p)⟩
  | cons q qs ih =>
    intro acc
    constructor
    · intro u hu
      simp only [List.foldl_cons]
      exact (ih (syncPostsStep E acc q)).1 u ((syncPostsStep_tracked E acc q).2 u hu)
    · intro p hp
      simp only [List.foldl_cons]
      rcases List.mem_cons.mp hp with rfl | hps
      · exact (ih (syncPostsStep E acc p)).1 p.uri (syncPostsStep_tracked E acc p).1
      · exact (ih (syncPostsStep E acc q)).2 p hps

/-- If every chain-passing post is already tracked, the filter keeps
nothing. -/
theorem filterPosts_eq_nil (E : SyncEnv) (st : List TrackingRecord)
    (settings : Option Settings) (posts : List ATProtoPost)
    (h : ∀ p ∈ posts,
      defaultShouldSyncPost (fun s => (E.parseMs s).isSome) p settings = true →
      (getByUri st p.uri).isSome = true) :
    filterPosts E st settings posts = [] := by
  unfold filterPosts
  rw [List.filter_eq_nil_iff]
  intro p hp
  simp only [Bool.and_eq_true, not_and]
  intro hchain hnone
  have hsome := h p hp hchain
  rw [Option.isNone_iff_eq_none] at hnone
  rw [hnone] at hsome
  simp at hsome

/-- After one `syncPosts` pass over the filtered posts, a second filtering
of the same feed keeps nothing: every chain-passing post is tracked. -/
theorem filterPosts_after_sync_nil (E : SyncEnv) (posts : List ATProtoPost)
    (tracking : List TrackingRecord) :
    filterPosts E (syncPosts E (filterPosts E tracking none posts) tracking).1
      none posts = [] := by
  apply filterPosts_eq_nil
  intro p hp hchain
  by_cases hT : (getByUri tracking p.uri).isSome = true
  · exact (syncPosts_fold_tracked E (filterPosts E tracking none posts)
      (tracking, 0, 0, [])).1 p.uri hT
  · have hmem : p ∈ filterPosts E tracking none posts := by
      unfold filterPosts
      rw [List.mem_filter]
      refine ⟨hp, ?_⟩
      rw [hchain]
      cases hopt : getByUri tracking p.uri with
      | none => rfl
      | some r => exact absurd (by rw [hopt]; rfl) hT
    exact (syncPosts_fold_tracked E (filterPosts E tracking none posts)
      (tracking, 0, 0, [])).2 p hmem

/-- `shouldProceed` ignores the cursor fields updated by a sync run. -/
theorem shouldProceed_update (a : Account) (n : Int) (c : Option JSString) :
    shouldProceed { a with last_sync_at := some n, last_sync_cursor := c }
      = shouldProceed a := rfl

/-- `authValidate` ignores the cursor fields updated by a sync run. -/
theorem authValidate_update (a : Account) (n : Int) (c : Option JSString) :
    authValidate { a with last_sync_at := some n, last_sync_cursor := c }
      = authValidate a := rfl

/-- C1: running `syncUser` twice against the same environment (in
particular, the same unchanged source feed) yields zero successful
publishes on the second run — every post the filter chain passes on the
second run is already present in the tracking store (by existence of its
URI, whatever its status), so nothing reaches the publisher. -/
theorem syncUser_idempotent (E : SyncEnv) (S : StorageState) :
    ((syncUser E ((syncUser E S).1)).2).postsSuccessful = 0 := by
  obtain ⟨account, tracking, logs⟩ := S
  cases account with
  | none => rfl
  | some a =>
    by_cases hp : shouldProceed a = true
    · cases hA : authValidate a with
      | error e =>
        simp only [syncUser, hp, Bool.not_true, Bool.false_eq_true, if_false,
          hA, appendLog]
        rfl
      | ok u =>
        cases hF : E.fetchResult with
        | error e =>
          simp only [syncUser, hp, Bool.not_true, Bool.false_eq_true, if_false,
            hA, hF, appendLog]
          rfl
        | ok pc =>
          obtain ⟨posts, newCursor⟩ := pc
          simp only [syncUser, hp, Bool.not_true, Bool.false_eq_true, if_false,
            hA, hF, appendLog, shouldProceed_update, authValidate_update]
          rw [filterPosts_after_sync_nil]
          rfl
    · have hp' : shouldProceed a = false := by
        cases h : shouldProceed a
        · rfl
        · exact absurd h hp
      simp only [syncUser, hp', Bool.not_false, if_true]
      rfl

/-- Whether `syncUser` takes the early-return skip path (setup incomplete
or an access token missing): `validateSetup` returns `shouldProceed:
false` and `syncUser` returns from inside the `try`, before the sync-log
append.  An absent account instead *throws*, which is caught and logged. -/
def skipsEarly (S : StorageState) : Bool :=
  match S.account with
  | some a => !shouldProceed a
  | none => false

/-- C5, amended: every invocation of `syncUser` appends exactly one
sync-log record — including the caught-exception paths — *except* the
early-return skip path (setup incomplete or tokens missing), which
returns a successful no-op result without logging. -/
theorem syncUser_logs_exactly_one (E : SyncEnv) (S : StorageState) :
    (skipsEarly S = true →
      ((syncUser E S).1).logs = S.logs ∧
      ((syncUser E S).2).success = true ∧
      ((syncUser E S).2).postsSuccessful = 0) ∧
    (skipsEarly S = false →
      ((syncUser E S).1).logs.length = S.logs.length + 1) := by
  obtain ⟨account, tracking, logs⟩ := S
  cases account with
  | none =>
    refine ⟨fun hskip => by simp [skipsEarly] at hskip, fun _ => ?_⟩
    simp only [syncUser, appendLog]
    simp [List.length_append]
  | some a =>
    cases hp : shouldProceed a with
    | false =>
      refine ⟨fun _ => ?_, fun hns => ?_⟩
      · simp only [syncUser, hp, Bool.not_false, if_true]
        refine ⟨by trivial, by trivial, by trivial⟩
      · simp [skipsEarly, hp] at hns
    | true =>
      refine ⟨fun hskip => ?_, fun _ => ?_⟩
      · simp [skipsEarly, hp] at hskip
      · cases hA : authValidate a with
        | error e =>
          simp only [syncUser, hp, Bool.not_true, Bool.false_eq_true, if_false,
            hA, appendLog]
          simp [List.length_append]
        | ok u =>
          cases hF : E.fetchResult with
          | error e =>
            simp only [syncUser, hp, Bool.not_true, Bool.false_eq_true, if_false,
              hA, hF, appendLog]
            simp [List.length_append]
          | ok pc =>
            obtain ⟨posts, newCursor⟩ := pc
            simp only [syncUser, hp, Bool.not_true, Bool.false_eq_true, if_false,
              hA, hF, appendLog]
            simp [List.length_append]

/-- A closed environment with inert collaborators, for concrete runs. -/
def trivialEnv : SyncEnv :=
  { parseMs := fun _ => none
    now := 0
    fetchResult := .ok ([], none)
    resolveBlob := fun _ => .error { message := jstr "offline" }
    transform := fun _ =>
      { text := [], media := [], mentions := [], links := [], hashtags := [] }
    client := { uploadMedia := fun _ _ => .error { message := jstr "offline" }
                createPost := fun _ _ _ => .error { message := jstr "offline" } }
    cfg := { maxRetries := 3, baseDelay := 1000, maxDelay := 30000, backoffFactor := 2 } }

/-- A state whose account has all tokens but `setup_completed = false`
(the unconfigured/skip path), with an empty sync-log store. -/
def unconfiguredState : StorageState :=
  { account := some
      { setup_completed := false
        atproto_access_token := some (jstr "atok")
        atproto_refresh_token := none
        atproto_did := some (jstr "did:plc:test")
        atproto_pds_url := some (jstr "https://pds.example")
        mastodon_access_token := some (jstr "mtok")
        mastodon_instance_url := some (jstr "https://m.example")
        last_sync_at := none
        last_sync_cursor := none }
    tracking := []
    logs := [] }

/-- The same account with `setup_completed = true` (a proceeding run). -/
def configuredState : StorageState :=
  { account := some
      { setup_completed := true
        atproto_access_token := some (jstr "atok")
        atproto_refresh_token := none
        atproto_did := some (jstr "did:plc:test")
        atproto_pds_url := some (jstr "https://pds.example")
        mastodon_access_token := some (jstr "mtok")
        mastodon_instance_url := some (jstr "https://m.example")
        last_sync_at := none
        last_sync_cursor := none }
    tracking := []
    logs := [] }

/-- C5, counterexample: on the unconfigured/skip path `syncUser` returns
a successful no-op result and appends *no* sync-log record, contradicting
the claim that every invocation appends exactly one. -/
theorem syncUser_skip_path_logs_nothing :
    ((syncUser trivialEnv unconfiguredState).1).logs = [] ∧
    ((syncUser trivialEnv unconfiguredState).2).success = true := by
  exact ⟨rfl, rfl⟩

/-- C5 witness: the amended claim at the two concrete states — the skip
path leaves the log store untouched, and a proceeding run appends exactly
one record. -/
theorem syncUser_logs_exactly_one_witness :
    ((syncUser trivialEnv unconfiguredState).1).logs = unconfiguredState.logs ∧
    ((syncUser trivialEnv configuredState).1).logs.length
      = configuredState.logs.length + 1 :=
  ⟨((syncUser_logs_exactly_one trivialEnv unconfiguredState).1 (by decide)).1,
   (syncUser_logs_exactly_one trivialEnv configuredState).2 (by decide)⟩
